import Mathlib

/-!
Verification of the gesture-controlled music player
(src/gesture_controller.py, src/utils.py).

The controller state and its operations are embedded as pure functions
over exact rational arithmetic (Python float arithmetic is idealized as
real/rational arithmetic).  Landmark-to-landmark distances are computed
by the source with a square root, so the Distance Metric itself is
modelled over the reals; the gesture-mapping code consumes only the
resulting scalar distances, which the embedding passes in as rational
inputs (the pinch distance of each hand, and the wrist-to-wrist distance
of the frame).  Fire-and-forget render threads are modelled by counters:
render_requests counts calls of adjust_audio (a render was requested by
an accepted candidate) and render_count counts renders actually spawned
(requests that passed the rate-limit gate).
-/

/-- Numpy clip: min (max x lo) hi, as used at lines 122, 131, 143 and
156 of gesture_controller.py. -/
def clip (x lo hi : ℚ) : ℚ := min (max x lo) hi

/-- Speed mapping of line 131: clip (1.0 + (pinch - 0.1) * 2.0) 0.5 2.0. -/
def speed_map (pinch : ℚ) : ℚ := clip (1 + (pinch - 1/10) * 2) (1/2) 2

/-- Pitch mapping of lines 143 and 156: clip ((pinch - 0.1) * 48 - 12) (-12) 12. -/
def pitch_map (pinch : ℚ) : ℚ := clip ((pinch - 1/10) * 48 - 12) (-12) 12

/-- Python 3 round (banker's rounding, ties to even), used at line 196
as int(round(current_pitch)). -/
def round_half_even (q : ℚ) : ℤ :=
  if q - ⌊q⌋ < 1/2 then ⌊q⌋
  else if q - ⌊q⌋ > 1/2 then ⌊q⌋ + 1
  else if 2 ∣ ⌊q⌋ then ⌊q⌋ else ⌊q⌋ + 1

/-- A hand landmark: a 2-D point in normalized image coordinates
(mediapipe NormalizedLandmark, fields x and y as used by utils.py). -/
structure Landmark where
  x : ℝ
  y : ℝ

/-- The distance function of src/utils.py line 14:
sqrt((x1-x2)**2 + (y1-y2)**2). -/
noncomputable def calculate_distance (landmark1 landmark2 : Landmark) : ℝ :=
  Real.sqrt ((landmark1.x - landmark2.x) ^ 2 + (landmark1.y - landmark2.y) ^ 2)

/-- A detected hand, represented by the scalar the gesture code derives
from it: its thumb-tip-to-index-tip pinch distance (the value of
calculate_distance on those two landmarks). -/
structure Hand where
  pinch : ℚ
deriving DecidableEq

/-- The mutable state of GestureController (fields of __init__, lines
30-53), together with the playback-sink state the controller drives
(mixer volume, currently loaded audio) and instrumentation counters for
the fire-and-forget render threads.  reset_last_speed and
reset_last_pitch model the vestigial attributes written (only) by
reset_controls at lines 241-242 under the names with a leading
underscore; they are none until reset_controls first runs, and nothing
reads them. -/
structure GestureController where
  playing : Bool
  current_speed : ℚ
  current_pitch : ℚ
  is_playing : Bool
  audio_data : List ℚ
  sample_rate : ℚ
  last_update_time : ℚ
  update_interval : ℚ
  last_speed : ℚ
  last_pitch : ℚ
  speed_threshold : ℚ
  pitch_threshold : ℚ
  paused : Bool
  volume : ℚ
  loaded_audio : List ℚ
  reset_last_speed : Option ℚ
  reset_last_pitch : Option ℚ
  render_requests : Nat
  render_count : Nat
  two_hand_runs : Nat
  single_pitch_runs : Nat
deriving DecidableEq

/-- The state built by __init__ (lines 30-53): speed 1.0, pitch 0.0,
update interval 0.2 s, thresholds 0.05 and 0.5, playback started
immediately at the mixer's default volume 1.0. -/
def initial_state (audio : List ℚ) (rate : ℚ) : GestureController :=
  { playing := false
    current_speed := 1
    current_pitch := 0
    is_playing := true
    audio_data := audio
    sample_rate := rate
    last_update_time := 0
    update_interval := 1/5
    last_speed := 1
    last_pitch := 0
    speed_threshold := 1/20
    pitch_threshold := 1/2
    paused := false
    volume := 1
    loaded_audio := audio
    reset_last_speed := none
    reset_last_pitch := none
    render_requests := 0
    render_count := 0
    two_hand_runs := 0
    single_pitch_runs := 0 }

/-- adjust_audio (lines 165-179): every call is a render request; if
less than update_interval has elapsed since the last spawned render it
returns without spawning, otherwise it records the time and spawns a
background render (render_count). -/
def adjust_audio (now : ℚ) (s : GestureController) : GestureController :=
  if now - s.last_update_time < s.update_interval then
    { s with render_requests := s.render_requests + 1 }
  else
    { s with render_requests := s.render_requests + 1,
             last_update_time := now,
             render_count := s.render_count + 1 }

/-- First block of the two-hand branch (lines 116-123): the wrist
distance is clipped to [0,1] and applied to the mixer volume at once,
with no debounce.  The two_hand_runs counter records each execution of
the two-hand branch. -/
def two_hand_volume_step (wrist_distance : ℚ) (s : GestureController) :
    GestureController :=
  { s with volume := clip wrist_distance 0 1,
           two_hand_runs := s.two_hand_runs + 1 }

/-- Speed block of the two-hand branch (lines 126-135): the hand-0
pinch is mapped to a speed candidate, compared against last_speed, and
on acceptance current_speed and last_speed are set and a render is
requested. -/
def two_hand_speed_step (now pinch1 : ℚ) (s : GestureController) :
    GestureController :=
  if |speed_map pinch1 - s.last_speed| > s.speed_threshold then
    adjust_audio now
      { s with current_speed := speed_map pinch1,
               last_speed := speed_map pinch1 }
  else s

/-- Pitch block of the two-hand branch (lines 138-146): the hand-1
pinch is mapped to a pitch candidate, compared against current_pitch
(not last_pitch), and on acceptance only current_pitch is set (line 145;
last_pitch is not touched) and a render is requested. -/
def two_hand_pitch_step (now pinch2 : ℚ) (s : GestureController) :
    GestureController :=
  if |pitch_map pinch2 - s.current_pitch| > s.pitch_threshold then
    adjust_audio now { s with current_pitch := pitch_map pinch2 }
  else s

/-- Single-hand pitch block (lines 149-163), run unconditionally at the
end of every handle_gestures call: the invoked hand's pinch is mapped to
a pitch candidate, compared against last_pitch, and on acceptance both
current_pitch and last_pitch are set and a render is requested.
single_pitch_runs counts each execution of this block. -/
def single_hand_pitch_step (now pinch : ℚ) (s : GestureController) :
    GestureController :=
  if |pitch_map pinch - s.last_pitch| > s.pitch_threshold then
    adjust_audio now
      { s with current_pitch := pitch_map pinch,
               last_pitch := pitch_map pinch,
               single_pitch_runs := s.single_pitch_runs + 1 }
  else { s with single_pitch_runs := s.single_pitch_runs + 1 }

/-- handle_gestures (lines 106-163): when the frame holds exactly two
hands, run the two-hand branch (volume, then hand-0 speed, then hand-1
pitch); then, in every case, run the single-hand pitch block on the
invoked hand. -/
def handle_gestures (now : ℚ) (hand : Hand) (all_hands : List Hand)
    (wrist_distance : ℚ) (s : GestureController) : GestureController :=
  single_hand_pitch_step now hand.pinch
    (match all_hands with
     | [hand1, hand2] =>
         two_hand_pitch_step now hand2.pinch
           (two_hand_speed_step now hand1.pinch
             (two_hand_volume_step wrist_distance s))
     | _ => s)

/-- The gesture part of process_frame (lines 97-102): handle_gestures
is invoked once per detected hand, each time with the full hand list.
wrist_distance is the distance between the wrists of hands 0 and 1,
read by the two-hand branch. -/
def process_frame (now : ℚ) (hands : List Hand) (wrist_distance : ℚ)
    (s : GestureController) : GestureController :=
  hands.foldl (fun acc h => handle_gestures now h hands wrist_distance acc) s

/-- External operations the render pass calls, each of which may raise:
pyrb.time_stretch, pyrb.pitch_shift, sf.write, pygame mixer load
(lines 188-203).  Arguments are the sample data, the sample rate, and
the speed or integer semitone count. -/
structure RenderOps where
  time_stretch : List ℚ → ℚ → ℚ → Except String (List ℚ)
  pitch_shift : List ℚ → ℚ → ℤ → Except String (List ℚ)
  write_file : List ℚ → ℚ → Except String Unit
  load_sink : List ℚ → Except String Unit

/-- The body of the try block of _process_audio (lines 188-204):
time-stretch the source buffer at current_speed, pitch-shift the result
by round(current_pitch), write the temp file, load it into the sink;
the first failing step aborts the pass with its error. -/
def render_pipeline (ops : RenderOps) (s : GestureController) :
    Except String (List ℚ) :=
  match ops.time_stretch s.audio_data s.sample_rate s.current_speed with
  | .error e => .error e
  | .ok stretched =>
    match ops.pitch_shift stretched s.sample_rate
        (round_half_even s.current_pitch) with
    | .error e => .error e
    | .ok shifted =>
      match ops.write_file shifted s.sample_rate with
      | .error e => .error e
      | .ok _ =>
        match ops.load_sink shifted with
        | .error e => .error e
        | .ok _ => .ok shifted

/-- _process_audio (lines 181-211): skip when paused; otherwise run the
render pipeline, and on success start playing the freshly loaded audio.
Any error is caught and logged (lines 209-211) and the state is left as
it was; the function is total, so no exception propagates. -/
def process_audio (ops : RenderOps) (s : GestureController) :
    GestureController :=
  if s.paused then s
  else
    match render_pipeline ops s with
    | .error _ => s
    | .ok shifted => { s with loaded_audio := shifted, is_playing := true }

/-- stop_audio (lines 213-219). -/
def stop_audio (s : GestureController) : GestureController :=
  if s.is_playing then { s with is_playing := false } else s

/-- toggle_play_pause (lines 221-234). -/
def toggle_play_pause (s : GestureController) : GestureController :=
  if s.is_playing then { s with paused := !s.paused }
  else { s with is_playing := true }

/-- reset_controls (lines 236-248): set current speed and pitch back to
1.0 and 0.0, write the vestigial underscore attributes (lines 241-242 of
the source assign _last_speed and _last_pitch, leaving the debounce
fields last_speed and last_pitch untouched), request a render, and
resume playback if it was stopped. -/
def reset_controls (now : ℚ) (s : GestureController) : GestureController :=
  let s1 := adjust_audio now
    { s with current_speed := 1, current_pitch := 0,
             reset_last_speed := some 1, reset_last_pitch := some 0 }
  if s1.is_playing then s1
  else { s1 with is_playing := true, paused := false }

/-- The spec invariant on the two render-relevant parameters:
speed in [0.5, 2.0] and pitch in [-12, 12]. -/
def SpeedPitchInv (s : GestureController) : Prop :=
  1/2 ≤ s.current_speed ∧ s.current_speed ≤ 2 ∧
    -12 ≤ s.current_pitch ∧ s.current_pitch ≤ 12

instance (s : GestureController) : Decidable (SpeedPitchInv s) := by
  unfold SpeedPitchInv
  infer_instance

/-! Helper lemmas: clip bounds and monotonicity, field preservation. -/

lemma clip_le_hi (x lo hi : ℚ) : clip x lo hi ≤ hi := min_le_right _ _

lemma lo_le_clip (x lo hi : ℚ) (h : lo ≤ hi) : lo ≤ clip x lo hi :=
  le_min (le_max_right x lo) h

lemma clip_mono (lo hi : ℚ) {x1 x2 : ℚ} (h : x1 ≤ x2) :
    clip x1 lo hi ≤ clip x2 lo hi :=
  min_le_min (max_le_max h le_rfl) le_rfl

lemma speed_map_mem (p : ℚ) : 1/2 ≤ speed_map p ∧ speed_map p ≤ 2 :=
  ⟨lo_le_clip _ _ _ (by norm_num), clip_le_hi _ _ _⟩

lemma pitch_map_mem (p : ℚ) : -12 ≤ pitch_map p ∧ pitch_map p ≤ 12 :=
  ⟨lo_le_clip _ _ _ (by norm_num), clip_le_hi _ _ _⟩

lemma pitch_map_mono {d1 d2 : ℚ} (h : d1 ≤ d2) :
    pitch_map d1 ≤ pitch_map d2 := by
  apply clip_mono
  have h48 : (d1 - 1/10) * 48 ≤ (d2 - 1/10) * 48 :=
    mul_le_mul_of_nonneg_right (sub_le_sub_right h _) (by norm_num)
  linarith

@[simp] lemma adjust_audio_current_speed (now : ℚ) (s : GestureController) :
    (adjust_audio now s).current_speed = s.current_speed := by
  unfold adjust_audio; split <;> rfl

@[simp] lemma adjust_audio_current_pitch (now : ℚ) (s : GestureController) :
    (adjust_audio now s).current_pitch = s.current_pitch := by
  unfold adjust_audio; split <;> rfl

@[simp] lemma adjust_audio_last_speed (now : ℚ) (s : GestureController) :
    (adjust_audio now s).last_speed = s.last_speed := by
  unfold adjust_audio; split <;> rfl

@[simp] lemma adjust_audio_last_pitch (now : ℚ) (s : GestureController) :
    (adjust_audio now s).last_pitch = s.last_pitch := by
  unfold adjust_audio; split <;> rfl

@[simp] lemma adjust_audio_speed_threshold (now : ℚ) (s : GestureController) :
    (adjust_audio now s).speed_threshold = s.speed_threshold := by
  unfold adjust_audio; split <;> rfl

@[simp] lemma adjust_audio_pitch_threshold (now : ℚ) (s : GestureController) :
    (adjust_audio now s).pitch_threshold = s.pitch_threshold := by
  unfold adjust_audio; split <;> rfl

@[simp] lemma adjust_audio_update_interval (now : ℚ) (s : GestureController) :
    (adjust_audio now s).update_interval = s.update_interval := by
  unfold adjust_audio; split <;> rfl

@[simp] lemma adjust_audio_is_playing (now : ℚ) (s : GestureController) :
    (adjust_audio now s).is_playing = s.is_playing := by
  unfold adjust_audio; split <;> rfl

@[simp] lemma adjust_audio_paused (now : ℚ) (s : GestureController) :
    (adjust_audio now s).paused = s.paused := by
  unfold adjust_audio; split <;> rfl

@[simp] lemma adjust_audio_render_requests (now : ℚ) (s : GestureController) :
    (adjust_audio now s).render_requests = s.render_requests + 1 := by
  unfold adjust_audio; split <;> rfl

@[simp] lemma adjust_audio_two_hand_runs (now : ℚ) (s : GestureController) :
    (adjust_audio now s).two_hand_runs = s.two_hand_runs := by
  unfold adjust_audio; split <;> rfl

@[simp] lemma adjust_audio_single_pitch_runs (now : ℚ) (s : GestureController) :
    (adjust_audio now s).single_pitch_runs = s.single_pitch_runs := by
  unfold adjust_audio; split <;> rfl

@[simp] lemma adjust_audio_reset_last_speed (now : ℚ) (s : GestureController) :
    (adjust_audio now s).reset_last_speed = s.reset_last_speed := by
  unfold adjust_audio; split <;> rfl

@[simp] lemma adjust_audio_reset_last_pitch (now : ℚ) (s : GestureController) :
    (adjust_audio now s).reset_last_pitch = s.reset_last_pitch := by
  unfold adjust_audio; split <;> rfl

lemma speedPitchInv_adjust_audio (now : ℚ) (s : GestureController)
    (hs : SpeedPitchInv s) : SpeedPitchInv (adjust_audio now s) := by
  unfold SpeedPitchInv at *
  simpa using hs

lemma speedPitchInv_two_hand_volume_step (w : ℚ) (s : GestureController)
    (hs : SpeedPitchInv s) : SpeedPitchInv (two_hand_volume_step w s) := by
  unfold SpeedPitchInv two_hand_volume_step at *
  simpa using hs

lemma speedPitchInv_two_hand_speed_step (now p : ℚ) (s : GestureController)
    (hs : SpeedPitchInv s) : SpeedPitchInv (two_hand_speed_step now p s) := by
  unfold two_hand_speed_step
  split
  · unfold SpeedPitchInv at *
    simp only [adjust_audio_current_speed, adjust_audio_current_pitch]
    exact ⟨(speed_map_mem p).1, (speed_map_mem p).2, hs.2.2.1, hs.2.2.2⟩
  · exact hs

lemma speedPitchInv_two_hand_pitch_step (now p : ℚ) (s : GestureController)
    (hs : SpeedPitchInv s) : SpeedPitchInv (two_hand_pitch_step now p s) := by
  unfold two_hand_pitch_step
  split
  · unfold SpeedPitchInv at *
    simp only [adjust_audio_current_speed, adjust_audio_current_pitch]
    exact ⟨hs.1, hs.2.1, (pitch_map_mem p).1, (pitch_map_mem p).2⟩
  · exact hs

lemma speedPitchInv_single_hand_pitch_step (now p : ℚ) (s : GestureController)
    (hs : SpeedPitchInv s) : SpeedPitchInv (single_hand_pitch_step now p s) := by
  unfold single_hand_pitch_step
  split
  · unfold SpeedPitchInv at *
    simp only [adjust_audio_current_speed, adjust_audio_current_pitch]
    exact ⟨hs.1, hs.2.1, (pitch_map_mem p).1, (pitch_map_mem p).2⟩
  · unfold SpeedPitchInv at *
    simpa using hs

lemma speedPitchInv_handle_gestures (now : ℚ) (hand : Hand)
    (all_hands : List Hand) (w : ℚ) (s : GestureController)
    (hs : SpeedPitchInv s) : SpeedPitchInv (handle_gestures now hand all_hands w s) := by
  unfold handle_gestures
  rcases all_hands with _ | ⟨a, _ | ⟨b, _ | ⟨c, t⟩⟩⟩
  · exact speedPitchInv_single_hand_pitch_step _ _ _ hs
  · exact speedPitchInv_single_hand_pitch_step _ _ _ hs
  · exact speedPitchInv_single_hand_pitch_step _ _ _
      (speedPitchInv_two_hand_pitch_step _ _ _
        (speedPitchInv_two_hand_speed_step _ _ _
          (speedPitchInv_two_hand_volume_step _ _ hs)))
  · exact speedPitchInv_single_hand_pitch_step _ _ _ hs

lemma speedPitchInv_foldl (now w : ℚ) (hands : List Hand) (l : List Hand) :
    ∀ (s : GestureController), SpeedPitchInv s →
      SpeedPitchInv (l.foldl (fun acc h => handle_gestures now h hands w acc) s) := by
  induction l with
  | nil => intro s hs; exact hs
  | cons h t ih =>
      intro s hs
      exact ih _ (speedPitchInv_handle_gestures _ _ _ _ _ hs)

lemma speedPitchInv_process_frame (now : ℚ) (hands : List Hand) (w : ℚ)
    (s : GestureController) (hs : SpeedPitchInv s) :
    SpeedPitchInv (process_frame now hands w s) :=
  speedPitchInv_foldl now w hands hands s hs

lemma speedPitchInv_reset_controls (now : ℚ) (s : GestureController) :
    SpeedPitchInv (reset_controls now s) := by
  unfold reset_controls SpeedPitchInv
  dsimp only
  split <;> simp <;> norm_num

lemma speedPitchInv_toggle_play_pause (s : GestureController)
    (hs : SpeedPitchInv s) : SpeedPitchInv (toggle_play_pause s) := by
  unfold toggle_play_pause SpeedPitchInv at *
  split <;> simpa using hs

lemma speedPitchInv_stop_audio (s : GestureController)
    (hs : SpeedPitchInv s) : SpeedPitchInv (stop_audio s) := by
  unfold stop_audio SpeedPitchInv at *
  split <;> simpa using hs

lemma speedPitchInv_process_audio (ops : RenderOps) (s : GestureController)
    (hs : SpeedPitchInv s) : SpeedPitchInv (process_audio ops s) := by
  unfold process_audio
  split
  · exact hs
  · split
    · exact hs
    · unfold SpeedPitchInv at *
      simpa using hs

/-- C4: every operation of the controller preserves the invariant
speed in [0.5, 2.0] and pitch in [-12, 12], the initial state satisfies
it, and the speed mapping lands in [0.5, 2.0] for every raw pinch
distance. -/
theorem C4_speed_pitch_invariant (s : GestureController) (hs : SpeedPitchInv s)
    (now w d rate : ℚ) (hand : Hand) (hands : List Hand) (audio : List ℚ)
    (ops : RenderOps) :
    (1/2 ≤ speed_map d ∧ speed_map d ≤ 2) ∧
    SpeedPitchInv (initial_state audio rate) ∧
    SpeedPitchInv (handle_gestures now hand hands w s) ∧
    SpeedPitchInv (process_frame now hands w s) ∧
    SpeedPitchInv (adjust_audio now s) ∧
    SpeedPitchInv (reset_controls now s) ∧
    SpeedPitchInv (toggle_play_pause s) ∧
    SpeedPitchInv (stop_audio s) ∧
    SpeedPitchInv (process_audio ops s) :=
  ⟨speed_map_mem d,
   by unfold SpeedPitchInv initial_state; norm_num,
   speedPitchInv_handle_gestures now hand hands w s hs,
   speedPitchInv_process_frame now hands w s hs,
   speedPitchInv_adjust_audio now s hs,
   speedPitchInv_reset_controls now s,
   speedPitchInv_toggle_play_pause s hs,
   speedPitchInv_stop_audio s hs,
   speedPitchInv_process_audio ops s hs⟩

/-- Witness for C4 at a concrete state, frame and render backend. -/
theorem C4_speed_pitch_invariant_witness :
    SpeedPitchInv (initial_state [] 1) ∧
    SpeedPitchInv (process_frame 1 [⟨3/10⟩, ⟨3/10⟩] (1/2) (initial_state [] 1)) :=
  ⟨of_decide_eq_true (by with_unfolding_all rfl),
   (C4_speed_pitch_invariant (initial_state [] 1)
      (of_decide_eq_true (by with_unfolding_all rfl)) 1 (1/2) 0 1
      ⟨3/10⟩ [⟨3/10⟩, ⟨3/10⟩] []
      ⟨fun d _ _ => .ok d, fun d _ _ => .ok d, fun _ _ => .ok (),
       fun _ => .ok ()⟩).2.2.2.1⟩

@[simp] lemma reset_controls_last_speed (now : ℚ) (s : GestureController) :
    (reset_controls now s).last_speed = s.last_speed := by
  unfold reset_controls; dsimp only; split <;> simp

@[simp] lemma reset_controls_last_pitch (now : ℚ) (s : GestureController) :
    (reset_controls now s).last_pitch = s.last_pitch := by
  unfold reset_controls; dsimp only; split <;> simp

@[simp] lemma reset_controls_speed_threshold (now : ℚ) (s : GestureController) :
    (reset_controls now s).speed_threshold = s.speed_threshold := by
  unfold reset_controls; dsimp only; split <;> simp

@[simp] lemma reset_controls_pitch_threshold (now : ℚ) (s : GestureController) :
    (reset_controls now s).pitch_threshold = s.pitch_threshold := by
  unfold reset_controls; dsimp only; split <;> simp

/-- C5: after reset_controls the current speed is 1.0 and the current
pitch is 0.0, and if playback was stopped it is resumed: the playing
flag becomes true and the paused flag false. -/
theorem C5_reset_controls (now : ℚ) (s : GestureController) :
    (reset_controls now s).current_speed = 1 ∧
    (reset_controls now s).current_pitch = 0 ∧
    (s.is_playing = false →
      (reset_controls now s).is_playing = true ∧
      (reset_controls now s).paused = false) := by
  unfold reset_controls
  dsimp only
  split
  · next h =>
      refine ⟨by simp, by simp, fun hf => ?_⟩
      simp [hf] at h
  · exact ⟨by simp, by simp, fun _ => ⟨rfl, rfl⟩⟩

/-- A controller whose playback has been stopped, used to witness the
resume branch of reset_controls. -/
def stopped_state : GestureController :=
  { initial_state [] 1 with is_playing := false }

/-- Witness for C5: resetting a stopped controller restores the
defaults and resumes playback. -/
theorem C5_reset_controls_witness :
    (reset_controls 1 stopped_state).current_speed = 1 ∧
    (reset_controls 1 stopped_state).current_pitch = 0 ∧
    (reset_controls 1 stopped_state).is_playing = true ∧
    (reset_controls 1 stopped_state).paused = false := by
  have h := C5_reset_controls 1 stopped_state
  exact ⟨h.1, h.2.1, (h.2.2 rfl).1, (h.2.2 rfl).2⟩

/-- C6: reset_controls writes only the vestigial underscore attributes
and leaves the debounce fields last_speed and last_pitch unchanged, so
a candidate arriving after a reset is still debounced against the
pre-reset last-accepted values: the post-reset single-hand pitch step
updates last_pitch exactly when the candidate differs from the
pre-reset last_pitch by more than the threshold, and likewise the speed
step against the pre-reset last_speed. -/
theorem C6_reset_leaves_debounce_state (now now2 p q : ℚ)
    (s : GestureController) :
    (reset_controls now s).last_speed = s.last_speed ∧
    (reset_controls now s).last_pitch = s.last_pitch ∧
    (reset_controls now s).reset_last_speed = some 1 ∧
    (reset_controls now s).reset_last_pitch = some 0 ∧
    ((single_hand_pitch_step now2 p (reset_controls now s)).last_pitch =
      if |pitch_map p - s.last_pitch| > s.pitch_threshold then pitch_map p
      else s.last_pitch) ∧
    ((two_hand_speed_step now2 q (reset_controls now s)).last_speed =
      if |speed_map q - s.last_speed| > s.speed_threshold then speed_map q
      else s.last_speed) := by
  refine ⟨reset_controls_last_speed now s, reset_controls_last_pitch now s,
    ?_, ?_, ?_, ?_⟩
  · unfold reset_controls; dsimp only; split <;> simp
  · unfold reset_controls; dsimp only; split <;> simp
  · unfold single_hand_pitch_step
    split
    · next h => rw [if_pos (by simpa using h)]; simp
    · next h => rw [if_neg (by simpa using h)]; simp
  · unfold two_hand_speed_step
    split
    · next h => rw [if_pos (by simpa using h)]; simp
    · next h => rw [if_neg (by simpa using h)]; simp

/-- C7: for every pinch distance the derived pitch lies in [-12, 12],
and the pitch mapping is monotone non-decreasing in the pinch
distance. -/
theorem C7_pitch_map_bounds_and_mono (d d1 d2 : ℚ) (h : d1 ≤ d2) :
    (-12 ≤ pitch_map d ∧ pitch_map d ≤ 12) ∧ pitch_map d1 ≤ pitch_map d2 :=
  ⟨pitch_map_mem d, pitch_map_mono h⟩

/-- Witness for C7 at concrete pinch distances 0, 0 and 1. -/
theorem C7_pitch_map_bounds_and_mono_witness :
    ((-12 ≤ pitch_map 0 ∧ pitch_map 0 ≤ 12) ∧ pitch_map 0 ≤ pitch_map 1) :=
  C7_pitch_map_bounds_and_mono 0 0 1 (by norm_num)

/-- C8: the landmark distance function is symmetric, zero on equal
landmarks, and computes exactly sqrt of the sum of squared coordinate
differences.  It is a pure function of its two arguments. -/
theorem C8_calculate_distance (a b : Landmark) :
    calculate_distance a b = calculate_distance b a ∧
    calculate_distance a a = 0 ∧
    calculate_distance a b =
      Real.sqrt ((a.x - b.x) ^ 2 + (a.y - b.y) ^ 2) := by
  refine ⟨?_, ?_, rfl⟩
  · unfold calculate_distance
    congr 1
    ring
  · unfold calculate_distance
    simp

set_option maxRecDepth 8000 in
/-- C3: end-to-end two-hand frame with wrist distance 0.5 and both
pinch distances 0.3, starting from the default controller state with
the rate-limit gate open (the frame arrives 1 s after start, and the
default debounce state is last speed 1.0, last pitch 0.0): the mixer
volume becomes 0.5, the speed candidate 1.4 and the pitch candidate
-2.4 are both accepted, and exactly one render is spawned. -/
theorem C3_end_to_end :
    speed_map (3/10) = 7/5 ∧
    pitch_map (3/10) = -(12/5) ∧
    (process_frame 1 [⟨3/10⟩, ⟨3/10⟩] (1/2) (initial_state [] 1)).volume
      = 1/2 ∧
    (process_frame 1 [⟨3/10⟩, ⟨3/10⟩] (1/2) (initial_state [] 1)).current_speed
      = 7/5 ∧
    (process_frame 1 [⟨3/10⟩, ⟨3/10⟩] (1/2) (initial_state [] 1)).current_pitch
      = -(12/5) ∧
    (process_frame 1 [⟨3/10⟩, ⟨3/10⟩] (1/2) (initial_state [] 1)).render_count
      = 1 ∧
    (initial_state [] (1 : ℚ)).render_count = 0 :=
  of_decide_eq_true (by with_unfolding_all rfl)

/-- C9: if any step of the render pipeline (time-stretch, pitch-shift,
file write, sink load) fails, the error is caught: process_audio still
returns a state (no exception propagates, being a total function), and
that state is exactly the input state, so the previously loaded
playback audio and the playing flag are unchanged. -/
theorem C9_render_failure_preserves_state (ops : RenderOps)
    (s : GestureController) (e : String)
    (h : render_pipeline ops s = Except.error e) :
    process_audio ops s = s ∧
    (process_audio ops s).loaded_audio = s.loaded_audio ∧
    (process_audio ops s).is_playing = s.is_playing := by
  have hp : process_audio ops s = s := by
    unfold process_audio
    split
    · rfl
    · rw [h]
  exact ⟨hp, by rw [hp], by rw [hp]⟩

/-- A render backend whose time-stretch step always raises. -/
def failing_ops : RenderOps :=
  ⟨fun _ _ _ => .error "rubberband error",
   fun d _ _ => .ok d, fun _ _ => .ok (), fun _ => .ok ()⟩

/-- Witness for C9: a failing time-stretch leaves the freshly
initialized controller untouched. -/
theorem C9_render_failure_preserves_state_witness :
    process_audio failing_ops (initial_state [] 1) = initial_state [] 1 :=
  (C9_render_failure_preserves_state failing_ops (initial_state [] 1)
    "rubberband error" rfl).1

@[simp] lemma two_hand_volume_step_two_hand_runs (w : ℚ)
    (s : GestureController) :
    (two_hand_volume_step w s).two_hand_runs = s.two_hand_runs + 1 := rfl

@[simp] lemma two_hand_volume_step_single_pitch_runs (w : ℚ)
    (s : GestureController) :
    (two_hand_volume_step w s).single_pitch_runs = s.single_pitch_runs := rfl

@[simp] lemma two_hand_speed_step_two_hand_runs (now p : ℚ)
    (s : GestureController) :
    (two_hand_speed_step now p s).two_hand_runs = s.two_hand_runs := by
  unfold two_hand_speed_step; split <;> simp

@[simp] lemma two_hand_speed_step_single_pitch_runs (now p : ℚ)
    (s : GestureController) :
    (two_hand_speed_step now p s).single_pitch_runs = s.single_pitch_runs := by
  unfold two_hand_speed_step; split <;> simp

@[simp] lemma two_hand_pitch_step_two_hand_runs (now p : ℚ)
    (s : GestureController) :
    (two_hand_pitch_step now p s).two_hand_runs = s.two_hand_runs := by
  unfold two_hand_pitch_step; split <;> simp

@[simp] lemma two_hand_pitch_step_single_pitch_runs (now p : ℚ)
    (s : GestureController) :
    (two_hand_pitch_step now p s).single_pitch_runs = s.single_pitch_runs := by
  unfold two_hand_pitch_step; split <;> simp

@[simp] lemma single_hand_pitch_step_two_hand_runs (now p : ℚ)
    (s : GestureController) :
    (single_hand_pitch_step now p s).two_hand_runs = s.two_hand_runs := by
  unfold single_hand_pitch_step; split <;> simp

@[simp] lemma single_hand_pitch_step_single_pitch_runs (now p : ℚ)
    (s : GestureController) :
    (single_hand_pitch_step now p s).single_pitch_runs
      = s.single_pitch_runs + 1 := by
  unfold single_hand_pitch_step; split <;> simp

lemma handle_gestures_two_hand_runs (now : ℚ) (hand h1 h2 : Hand) (w : ℚ)
    (s : GestureController) :
    (handle_gestures now hand [h1, h2] w s).two_hand_runs
      = s.two_hand_runs + 1 := by
  show (single_hand_pitch_step now hand.pinch
    (two_hand_pitch_step now h2.pinch
      (two_hand_speed_step now h1.pinch
        (two_hand_volume_step w s)))).two_hand_runs = s.two_hand_runs + 1
  simp

lemma handle_gestures_single_pitch_runs (now : ℚ) (hand h1 h2 : Hand) (w : ℚ)
    (s : GestureController) :
    (handle_gestures now hand [h1, h2] w s).single_pitch_runs
      = s.single_pitch_runs + 1 := by
  show (single_hand_pitch_step now hand.pinch
    (two_hand_pitch_step now h2.pinch
      (two_hand_speed_step now h1.pinch
        (two_hand_volume_step w s)))).single_pitch_runs
    = s.single_pitch_runs + 1
  simp

/-- C10: with exactly two detected hands, process_frame invokes the
per-hand gesture handler once for each hand, passing the full hand list
both times; each invocation runs the unguarded two-hand branch, so in
such a frame the two-hand mapping (volume, hand-0 speed check, hand-1
pitch check) executes twice and the single-hand pitch block also
executes twice (once per invoked hand), and each invocation is exactly
the composition volume step, speed step, two-hand pitch step, then
single-hand pitch step on the invoked hand. -/
theorem C10_two_hand_frame_double_execution (now : ℚ) (h1 h2 : Hand)
    (w : ℚ) (s : GestureController) :
    process_frame now [h1, h2] w s
      = handle_gestures now h2 [h1, h2] w
          (handle_gestures now h1 [h1, h2] w s) ∧
    (process_frame now [h1, h2] w s).two_hand_runs = s.two_hand_runs + 2 ∧
    (process_frame now [h1, h2] w s).single_pitch_runs
      = s.single_pitch_runs + 2 ∧
    ∀ hand : Hand, handle_gestures now hand [h1, h2] w s
      = single_hand_pitch_step now hand.pinch
          (two_hand_pitch_step now h2.pinch
            (two_hand_speed_step now h1.pinch
              (two_hand_volume_step w s))) := by
  refine ⟨rfl, ?_, ?_, fun hand => rfl⟩
  · show (handle_gestures now h2 [h1, h2] w
      (handle_gestures now h1 [h1, h2] w s)).two_hand_runs
        = s.two_hand_runs + 2
    rw [handle_gestures_two_hand_runs, handle_gestures_two_hand_runs]
  · show (handle_gestures now h2 [h1, h2] w
      (handle_gestures now h1 [h1, h2] w s)).single_pitch_runs
        = s.single_pitch_runs + 2
    rw [handle_gestures_single_pitch_runs, handle_gestures_single_pitch_runs]

@[simp] lemma two_hand_volume_step_current_pitch (w : ℚ)
    (s : GestureController) :
    (two_hand_volume_step w s).current_pitch = s.current_pitch := rfl

@[simp] lemma two_hand_volume_step_last_pitch (w : ℚ)
    (s : GestureController) :
    (two_hand_volume_step w s).last_pitch = s.last_pitch := rfl

@[simp] lemma two_hand_volume_step_last_speed (w : ℚ)
    (s : GestureController) :
    (two_hand_volume_step w s).last_speed = s.last_speed := rfl

@[simp] lemma two_hand_volume_step_speed_threshold (w : ℚ)
    (s : GestureController) :
    (two_hand_volume_step w s).speed_threshold = s.speed_threshold := rfl

@[simp] lemma two_hand_volume_step_pitch_threshold (w : ℚ)
    (s : GestureController) :
    (two_hand_volume_step w s).pitch_threshold = s.pitch_threshold := rfl

@[simp] lemma two_hand_volume_step_render_requests (w : ℚ)
    (s : GestureController) :
    (two_hand_volume_step w s).render_requests = s.render_requests := rfl

@[simp] lemma two_hand_speed_step_current_pitch (now p : ℚ)
    (s : GestureController) :
    (two_hand_speed_step now p s).current_pitch = s.current_pitch := by
  unfold two_hand_speed_step; split <;> simp

@[simp] lemma two_hand_speed_step_last_pitch (now p : ℚ)
    (s : GestureController) :
    (two_hand_speed_step now p s).last_pitch = s.last_pitch := by
  unfold two_hand_speed_step; split <;> simp

@[simp] lemma two_hand_speed_step_pitch_threshold (now p : ℚ)
    (s : GestureController) :
    (two_hand_speed_step now p s).pitch_threshold = s.pitch_threshold := by
  unfold two_hand_speed_step; split <;> simp

lemma two_hand_speed_step_render_requests (now p : ℚ)
    (s : GestureController) :
    (two_hand_speed_step now p s).render_requests = s.render_requests
      + (if |speed_map p - s.last_speed| > s.speed_threshold then 1 else 0) := by
  unfold two_hand_speed_step
  split <;> simp

@[simp] lemma two_hand_pitch_step_last_pitch (now p : ℚ)
    (s : GestureController) :
    (two_hand_pitch_step now p s).last_pitch = s.last_pitch := by
  unfold two_hand_pitch_step; split <;> simp

@[simp] lemma two_hand_pitch_step_pitch_threshold (now p : ℚ)
    (s : GestureController) :
    (two_hand_pitch_step now p s).pitch_threshold = s.pitch_threshold := by
  unfold two_hand_pitch_step; split <;> simp

lemma two_hand_pitch_step_current_pitch (now p : ℚ)
    (s : GestureController) :
    (two_hand_pitch_step now p s).current_pitch =
      if |pitch_map p - s.current_pitch| > s.pitch_threshold then pitch_map p
      else s.current_pitch := by
  unfold two_hand_pitch_step
  split <;> simp

lemma two_hand_pitch_step_render_requests (now p : ℚ)
    (s : GestureController) :
    (two_hand_pitch_step now p s).render_requests = s.render_requests
      + (if |pitch_map p - s.current_pitch| > s.pitch_threshold then 1 else 0) := by
  unfold two_hand_pitch_step
  split <;> simp

lemma single_hand_pitch_step_last_pitch (now p : ℚ)
    (s : GestureController) :
    (single_hand_pitch_step now p s).last_pitch =
      if |pitch_map p - s.last_pitch| > s.pitch_threshold then pitch_map p
      else s.last_pitch := by
  unfold single_hand_pitch_step
  split <;> simp

lemma single_hand_pitch_step_current_pitch (now p : ℚ)
    (s : GestureController) :
    (single_hand_pitch_step now p s).current_pitch =
      if |pitch_map p - s.last_pitch| > s.pitch_threshold then pitch_map p
      else s.current_pitch := by
  unfold single_hand_pitch_step
  split <;> simp

lemma single_hand_pitch_step_render_requests (now p : ℚ)
    (s : GestureController) :
    (single_hand_pitch_step now p s).render_requests = s.render_requests
      + (if |pitch_map p - s.last_pitch| > s.pitch_threshold then 1 else 0) := by
  unfold single_hand_pitch_step
  split <;> simp

/-- State after the volume and speed blocks of the two-hand branch on a
first frame with hands of pinch 0.35 and 0.3 and wrist distance 0.5,
starting from the initial controller state at time 1 s. -/
def c1_pre : GestureController :=
  two_hand_speed_step 1 (7/20)
    (two_hand_volume_step (1/2) (initial_state [] 1))

/-- State after the two-hand pitch block of that first frame: the
candidate pitch_map 0.3 = -2.4 is accepted against current pitch 0. -/
def c1_mid : GestureController := two_hand_pitch_step 1 (3/10) c1_pre

/-- State after the full first handle_gestures invocation (hand 0 is
the invoked hand; its single-hand candidate pitch_map 0.35 = 0 is
rejected against last pitch 0). -/
def c1_s1 : GestureController :=
  handle_gestures 1 ⟨7/20⟩ [⟨7/20⟩, ⟨3/10⟩] (1/2) (initial_state [] 1)

/-- State after the volume and speed blocks of a second two-hand frame
(both pinches 0.35, speed candidate rejected) at time 2 s. -/
def c1_pre2 : GestureController :=
  two_hand_speed_step 2 (7/20) (two_hand_volume_step (1/2) c1_s1)

/-- State after the two-hand pitch block of the second frame: the
candidate pitch_map 0.35 = 0 is accepted against current pitch -2.4. -/
def c1_mid2 : GestureController := two_hand_pitch_step 2 (7/20) c1_pre2

set_option maxRecDepth 8000 in
/-- Counterexample to C1.  On the first frame the two-hand pitch
candidate -2.4 is accepted (current pitch changes from 0 to -2.4 and a
render is requested), yet the last-accepted-pitch debounce field stays
0: the acceptance does not update the debounce state.  On the second
frame the candidate 0 is again accepted (current pitch changes from
-2.4 to 0, render requested) although its distance from the
last-accepted pitch, which is 0, does not exceed the 0.5 threshold:
acceptance is not conditioned on the last-accepted pitch.  The two-hand
path of lines 143-146 compares against current pitch and never writes
last pitch. -/
theorem C1_counterexample :
    (c1_pre.current_pitch = 0 ∧ c1_pre.last_pitch = 0 ∧
      c1_pre.pitch_threshold = 1/2) ∧
    (c1_mid.current_pitch = -(12/5) ∧
      c1_mid.render_requests = c1_pre.render_requests + 1 ∧
      c1_mid.last_pitch = 0) ∧
    (c1_s1.current_pitch = -(12/5) ∧ c1_s1.last_pitch = 0) ∧
    (c1_pre2.current_pitch = -(12/5) ∧ c1_pre2.last_pitch = 0 ∧
      c1_pre2.pitch_threshold = 1/2) ∧
    (c1_mid2.current_pitch = 0 ∧
      c1_mid2.render_requests = c1_pre2.render_requests + 1 ∧
      ¬(|pitch_map (7/20) - c1_pre2.last_pitch| > c1_pre2.pitch_threshold)) :=
  of_decide_eq_true (by with_unfolding_all rfl)

/-- C1 amended: in a two-hand frame, only the single-hand path debounces
pitch candidates against the last-accepted pitch and updates it on
acceptance; the two-hand path instead accepts its candidate (hand 1's
pinch) when it differs from the current pitch by more than the
threshold, updates only the current pitch, and leaves the
last-accepted-pitch debounce field unchanged.  Every acceptance on any
path (speed or either pitch path) requests a render. -/
theorem C1_pitch_debounce_amended (now : ℚ) (hand h1 h2 : Hand) (w : ℚ)
    (s : GestureController) :
    ((handle_gestures now hand [h1, h2] w s).last_pitch =
      if |pitch_map hand.pinch - s.last_pitch| > s.pitch_threshold
      then pitch_map hand.pinch else s.last_pitch) ∧
    ((handle_gestures now hand [h1, h2] w s).current_pitch =
      if |pitch_map hand.pinch - s.last_pitch| > s.pitch_threshold
      then pitch_map hand.pinch
      else if |pitch_map h2.pinch - s.current_pitch| > s.pitch_threshold
      then pitch_map h2.pinch
      else s.current_pitch) ∧
    ((handle_gestures now hand [h1, h2] w s).render_requests =
      s.render_requests
        + (if |speed_map h1.pinch - s.last_speed| > s.speed_threshold
           then 1 else 0)
        + (if |pitch_map h2.pinch - s.current_pitch| > s.pitch_threshold
           then 1 else 0)
        + (if |pitch_map hand.pinch - s.last_pitch| > s.pitch_threshold
           then 1 else 0)) := by
  refine ⟨?_, ?_, ?_⟩
  · show (single_hand_pitch_step now hand.pinch
      (two_hand_pitch_step now h2.pinch
        (two_hand_speed_step now h1.pinch
          (two_hand_volume_step w s)))).last_pitch = _
    rw [single_hand_pitch_step_last_pitch]
    simp
  · show (single_hand_pitch_step now hand.pinch
      (two_hand_pitch_step now h2.pinch
        (two_hand_speed_step now h1.pinch
          (two_hand_volume_step w s)))).current_pitch = _
    rw [single_hand_pitch_step_current_pitch]
    simp [two_hand_pitch_step_current_pitch]
  · show (single_hand_pitch_step now hand.pinch
      (two_hand_pitch_step now h2.pinch
        (two_hand_speed_step now h1.pinch
          (two_hand_volume_step w s)))).render_requests = _
    rw [single_hand_pitch_step_render_requests,
        two_hand_pitch_step_render_requests,
        two_hand_speed_step_render_requests]
    simp

lemma single_hand_pitch_step_accepted_gated (now p : ℚ)
    (s : GestureController)
    (hacc : |pitch_map p - s.last_pitch| > s.pitch_threshold)
    (hg : now - s.last_update_time < s.update_interval) :
    single_hand_pitch_step now p s
      = { s with current_pitch := pitch_map p, last_pitch := pitch_map p,
                 single_pitch_runs := s.single_pitch_runs + 1,
                 render_requests := s.render_requests + 1 } := by
  unfold single_hand_pitch_step adjust_audio
  rw [if_pos hacc, if_pos (by simpa using hg)]

lemma single_hand_pitch_step_accepted_open (now p : ℚ)
    (s : GestureController)
    (hacc : |pitch_map p - s.last_pitch| > s.pitch_threshold)
    (hg : s.update_interval ≤ now - s.last_update_time) :
    single_hand_pitch_step now p s
      = { s with current_pitch := pitch_map p, last_pitch := pitch_map p,
                 single_pitch_runs := s.single_pitch_runs + 1,
                 render_requests := s.render_requests + 1,
                 last_update_time := now,
                 render_count := s.render_count + 1 } := by
  unfold single_hand_pitch_step adjust_audio
  rw [if_pos hacc, if_neg (by simpa using not_lt.mpr hg)]

/-- C2: two single-hand frames whose pitch candidates both pass the
value threshold arrive 50 ms apart with the 200 ms update interval, the
first at least one interval after the last spawned render: exactly one
render is spawned across the two frames, and the state the spawned
render reads once both frames are processed carries the later
candidate's pitch (both current and last-accepted pitch equal it).  In
general, an accepted candidate spawns a render exactly when the time
since the last spawned render is at least the update interval, and a
candidate accepted inside the interval still updates the parameter
value while spawning nothing. -/
theorem C2_time_gate (s0 : GestureController) (t1 t2 w1 w2 : ℚ)
    (ha hb : Hand)
    (hI : s0.update_interval = 1/5)
    (hacc1 : |pitch_map ha.pinch - s0.last_pitch| > s0.pitch_threshold)
    (hacc2 : |pitch_map hb.pinch - pitch_map ha.pinch| > s0.pitch_threshold)
    (hgate : s0.update_interval ≤ t1 - s0.last_update_time)
    (ht2 : t2 = t1 + 1/20) :
    ((process_frame t2 [hb] w2 (process_frame t1 [ha] w1 s0)).render_count
        = s0.render_count + 1) ∧
    ((process_frame t2 [hb] w2 (process_frame t1 [ha] w1 s0)).current_pitch
        = pitch_map hb.pinch) ∧
    ((process_frame t2 [hb] w2 (process_frame t1 [ha] w1 s0)).last_pitch
        = pitch_map hb.pinch) ∧
    (∀ (s : GestureController) (now p : ℚ),
      |pitch_map p - s.last_pitch| > s.pitch_threshold →
        ((now - s.last_update_time < s.update_interval →
          (single_hand_pitch_step now p s).current_pitch = pitch_map p ∧
          (single_hand_pitch_step now p s).last_pitch = pitch_map p ∧
          (single_hand_pitch_step now p s).render_count = s.render_count) ∧
        (s.update_interval ≤ now - s.last_update_time →
          (single_hand_pitch_step now p s).render_count
            = s.render_count + 1))) := by
  have e1 : process_frame t1 [ha] w1 s0
      = single_hand_pitch_step t1 ha.pinch s0 := rfl
  have e2 : ∀ u : GestureController, process_frame t2 [hb] w2 u
      = single_hand_pitch_step t2 hb.pinch u := fun u => rfl
  rw [e2, e1]
  rw [single_hand_pitch_step_accepted_open t1 ha.pinch s0 hacc1 hgate]
  rw [single_hand_pitch_step_accepted_gated t2 hb.pinch _
    (by simpa using hacc2)
    (by show t2 - t1 < s0.update_interval; rw [ht2, hI]; linarith)]
  refine ⟨rfl, rfl, rfl, fun s now p hacc => ⟨fun hg => ?_, fun hg => ?_⟩⟩
  · rw [single_hand_pitch_step_accepted_gated now p s hacc hg]
    exact ⟨rfl, rfl, rfl⟩
  · rw [single_hand_pitch_step_accepted_open now p s hacc hg]

/-- Witness for C2: candidates -2.4 (at 1 s) and 0 (at 1.05 s) from the
initial state spawn exactly one render and leave the later candidate's
pitch in place. -/
theorem C2_time_gate_witness :
    ((process_frame (21/20) [⟨7/20⟩] 0
        (process_frame 1 [⟨3/10⟩] 0 (initial_state [] 1))).render_count
      = (initial_state [] (1 : ℚ)).render_count + 1) ∧
    ((process_frame (21/20) [⟨7/20⟩] 0
        (process_frame 1 [⟨3/10⟩] 0 (initial_state [] 1))).current_pitch
      = pitch_map (7/20)) ∧
    ((process_frame (21/20) [⟨7/20⟩] 0
        (process_frame 1 [⟨3/10⟩] 0 (initial_state [] 1))).last_pitch
      = pitch_map (7/20)) := by
  have h := C2_time_gate (initial_state [] 1) 1 (21/20) 0 0 ⟨3/10⟩ ⟨7/20⟩
    rfl
    (of_decide_eq_true (by with_unfolding_all rfl))
    (of_decide_eq_true (by with_unfolding_all rfl))
    (of_decide_eq_true (by with_unfolding_all rfl))
    (by norm_num)
  exact ⟨h.1, h.2.1, h.2.2.1⟩
